import Mathlib

/-!
Shallow embedding of `src/Baidu_hot_extened.py`, a Baidu hot-search
scraper: an HTTP session with a urllib3 retry policy, a single page
fetch, a BeautifulSoup-based record extractor with fallback CSS
selectors, and three writers (Excel, CSV, JSON).
-/

namespace BaiduHot

/-! ## DOM model

A parsed HTML tree in the style of BeautifulSoup's `html.parser`:
element nodes carry a tag name, a list of class tokens, an attribute
association list and an ordered list of children; text nodes carry a
string fragment.
-/

/-- A node of the parsed DOM tree. -/
inductive Dom where
  | text (s : String)
  | elem (tag : String) (classes : List String)
      (attrs : List (String × String)) (children : List Dom)
deriving Repr

mutual

/-- All text fragments of a subtree in document order
(BeautifulSoup collects the `NavigableString` descendants). -/
def Dom.strings : Dom → List String
  | .text s => [s]
  | .elem _ _ _ cs => stringsList cs

def stringsList : List Dom → List String
  | [] => []
  | c :: cs => Dom.strings c ++ stringsList cs

end

/-- Python's `str.strip` / the stripping done by `get_text(strip=True)`:
drop whitespace from both ends (ASCII whitespace in this model). -/
def pyStrip (s : String) : String :=
  String.mk (((s.toList.dropWhile Char.isWhitespace).reverse.dropWhile
    Char.isWhitespace).reverse)

/-- BeautifulSoup `get_text(separator, strip)`: when `strip` is true each
fragment is stripped and empty fragments are dropped; the fragments are
joined with the separator. -/
def get_text (sep : String) (strip : Bool) (d : Dom) : String :=
  let frags := Dom.strings d
  let frags := if strip then (frags.map pyStrip).filter (fun s => s ≠ "") else frags
  String.intercalate sep frags

mutual

/-- The element itself followed by its element descendants, in
document (preorder) order; text nodes are not elements. -/
def selfAndDescendants : Dom → List Dom
  | .text _ => []
  | .elem t k a cs => Dom.elem t k a cs :: descendantsList cs

def descendantsList : List Dom → List Dom
  | [] => []
  | c :: cs => selfAndDescendants c ++ descendantsList cs

end

/-- The element descendants of a node, in document order, excluding the
node itself (CSS selection via `.select` searches descendants only). -/
def Dom.descendants : Dom → List Dom
  | .text _ => []
  | .elem _ _ _ cs => descendantsList cs

/-- A simple CSS selector as used by the source: an optional tag name,
an optional class token, an optional required attribute.  The source's
selector strings (`"div.category-wrap_iQLoo"`, `".index"`, `"a[href]"`)
all fall in this fragment. -/
structure Selector where
  tagName : Option String := none
  className : Option String := none
  attrName : Option String := none
deriving Repr, DecidableEq

/-- Whether an element node matches a simple selector. -/
def matchesSel (s : Selector) : Dom → Bool
  | .text _ => false
  | .elem t classes attrs _ =>
    (match s.tagName with | none => true | some tn => tn = t) &&
    (match s.className with | none => true | some cn => classes.contains cn) &&
    (match s.attrName with | none => true | some an => (attrs.map Prod.fst).contains an)

/-- Model of `node.select("s1, s2")`: all element descendants, in document order,
matching any selector of the comma list (soupsieve returns document
order, not selector-list order). -/
def Dom.select (d : Dom) (sels : List Selector) : List Dom :=
  d.descendants.filter (fun n => sels.any (fun s => matchesSel s n))

/-- Model of `node.select_one(...)`: the first match in document order, if any. -/
def Dom.selectOne (d : Dom) (sels : List Selector) : Option Dom :=
  (d.select sels).head?

/-- Attribute lookup, `node["key"]` guarded by `has_attr`. -/
def Dom.getAttr : Dom → String → Option String
  | .text _, _ => none
  | .elem _ _ attrs _, k => (attrs.find? (fun p => p.1 = k)).map Prod.snd

/-! ## Python `int(...)` on strings

`int(s)` strips surrounding whitespace, accepts an optional sign, then
ASCII digits with single underscores allowed between digits; anything
else raises `ValueError`.  (Non-ASCII digits accepted by CPython are
out of the modelled alphabet.) -/

/-- Digits after the first one: accepts `digit` or `_ digit`, folding
the value; a trailing or doubled underscore fails. -/
def pyDigitsCore : Nat → List Char → Option Nat
  | acc, [] => some acc
  | acc, c :: cs =>
    if c.isDigit then pyDigitsCore (10 * acc + (c.toNat - 48)) cs
    else if c = '_' then
      match cs with
      | d :: rest =>
        if d.isDigit then pyDigitsCore (10 * acc + (d.toNat - 48)) rest else none
      | [] => none
    else none

/-- A nonempty Python digit run (`digit (_? digit)*`). -/
def pyDigits : List Char → Option Nat
  | [] => none
  | c :: cs => if c.isDigit then pyDigitsCore (c.toNat - 48) cs else none

/-- Python `int(s)` on a `str`: `some n` on success, `none` when a
`ValueError` would be raised. -/
def pyInt (s : String) : Option Int :=
  match (pyStrip s).toList with
  | '+' :: rest => (pyDigits rest).map (fun n => (n : Int))
  | '-' :: rest => (pyDigits rest).map (fun n => -(n : Int))
  | cs => (pyDigits cs).map (fun n => (n : Int))

/-! ## Module constants (lines 17-30 of the source) -/

/-- The constant `BAIDU_TOP_URL` (line 17). -/
def BAIDU_TOP_URL : String := "https://top.baidu.com/board?tab=realtime"

/-! ## Record: the dict built by `parse_items` (lines 89-101)

A `Record` models the Python dict appended for each card; the dict's
insertion order of keys is `rank, title, heat, tag, brief, link, trend,
fetched_at, source`. -/

/-- The structured result of extracting one card, plus the run-level
timestamp and source. -/
structure Record where
  rank : Int
  title : String
  heat : String
  tag : String
  brief : String
  link : String
  trend : String
  fetched_at : String
  source : String
deriving Repr, DecidableEq

/-- A spreadsheet / JSON cell value: `rank` is a Python `int`, every
other field a `str`. -/
inductive CellVal where
  | int (i : Int)
  | str (s : String)
deriving Repr, DecidableEq

/-- The dict key insertion order of the records built in `parse_items`
(lines 89-101); `list(r.keys())` returns exactly this. -/
def Record.keys : List String :=
  ["rank", "title", "heat", "tag", "brief", "link", "trend", "fetched_at", "source"]

/-- Dict access `r.get(h, "")`: the value at a key, an empty string for an
absent key (the default used by `save_excel`, line 114). -/
def Record.get (r : Record) : String → CellVal
  | "rank" => .int r.rank
  | "title" => .str r.title
  | "heat" => .str r.heat
  | "tag" => .str r.tag
  | "brief" => .str r.brief
  | "link" => .str r.link
  | "trend" => .str r.trend
  | "fetched_at" => .str r.fetched_at
  | "source" => .str r.source
  | _ => .str ""

/-! ## RecordExtractor: `parse_items` (lines 47-102) -/

/-- Line 53, first alternative: `div.category-wrap_iQLoo`. -/
def cardSel1 : Selector := { tagName := some "div", className := some "category-wrap_iQLoo" }

/-- Line 53, second alternative: `div.category-wrap`. -/
def cardSel2 : Selector := { tagName := some "div", className := some "category-wrap" }

/-- Line 59: `.c-single-text-ellipsis`. -/
def titleSels : List Selector := [{ className := some "c-single-text-ellipsis" }]

/-- Line 63: `.index_1Ew5p, .index`. -/
def rankSels : List Selector :=
  [{ className := some "index_1Ew5p" }, { className := some "index" }]

/-- Line 70: `.hot-index_1Bl1a, .hot-index`. -/
def heatSels : List Selector :=
  [{ className := some "hot-index_1Bl1a" }, { className := some "hot-index" }]

/-- Line 74: `.hot-desc_1m_jR, .hot-desc`. -/
def briefSels : List Selector :=
  [{ className := some "hot-desc_1m_jR" }, { className := some "hot-desc" }]

/-- Line 78: `.tag_1z8Gk, .tag`. -/
def tagSels : List Selector :=
  [{ className := some "tag_1z8Gk" }, { className := some "tag" }]

/-- Line 82: `a[href]`. -/
def linkSels : List Selector := [{ tagName := some "a", attrName := some "href" }]

/-- Line 86: `.trend-icon, .trend`. -/
def trendSels : List Selector :=
  [{ className := some "trend-icon" }, { className := some "trend" }]

/-- Lines 59-60: title text, empty when no node matches. -/
def extractTitle (card : Dom) : String :=
  match card.selectOne titleSels with
  | some el => get_text "" true el
  | none => ""

/-- Lines 63-67: the rank; `int` of the matched text, falling back to
the 1-based loop index when no node matches or `int` raises. -/
def extractRank (idx : Nat) (card : Dom) : Int :=
  match card.selectOne rankSels with
  | some el => (pyInt (get_text "" true el)).getD (idx : Int)
  | none => (idx : Int)

/-- Lines 70-71: heat text, empty when no node matches. -/
def extractHeat (card : Dom) : String :=
  match card.selectOne heatSels with
  | some el => get_text "" true el
  | none => ""

/-- Lines 74-75: brief text joined with single spaces, empty when no
node matches. -/
def extractBrief (card : Dom) : String :=
  match card.selectOne briefSels with
  | some el => get_text " " true el
  | none => ""

/-- Lines 78-79: tag text, empty when no node matches. -/
def extractTag (card : Dom) : String :=
  match card.selectOne tagSels with
  | some el => get_text "" true el
  | none => ""

/-- Lines 82-83: `href` of the first `a[href]` descendant, stripped;
empty when no node matches. -/
def extractLink (card : Dom) : String :=
  match card.selectOne linkSels with
  | some el => pyStrip ((el.getAttr "href").getD "")
  | none => ""

/-- Lines 86-87: trend text, empty when no node matches. -/
def extractTrend (card : Dom) : String :=
  match card.selectOne trendSels with
  | some el => get_text "" true el
  | none => ""

/-- Lines 57-101: the record built for the card at 1-based position
`idx`; `ts` is the run timestamp computed once per call (line 55). -/
def extractCard (ts : String) (idx : Nat) (card : Dom) : Record :=
  { rank := extractRank idx card
    title := extractTitle card
    heat := extractHeat card
    tag := extractTag card
    brief := extractBrief card
    link := extractLink card
    trend := extractTrend card
    fetched_at := ts
    source := BAIDU_TOP_URL }

/-- Line 53: `soup.select(...) or soup.select(...) or []` — a Python
`or` chain takes the first truthy (non-empty) list: the first container
selector with at least one match wins; both empty gives `[]`. -/
def discoverCards (soup : Dom) : List Dom :=
  if (soup.select [cardSel1]).isEmpty then soup.select [cardSel2]
  else soup.select [cardSel1]

/-- The loop of lines 57-101: `for idx, card in enumerate(cards, start=n)`. -/
def extractFrom (ts : String) : Nat → List Dom → List Record
  | _, [] => []
  | idx, c :: cs => extractCard ts idx c :: extractFrom ts (idx + 1) cs

/-- The extractor `parse_items(soup)` (lines 47-102); the timestamp `ts` models the
`datetime.now` read of line 54, a run-level input. -/
def parse_items (ts : String) (soup : Dom) : List Record :=
  extractFrom ts 1 (discoverCards soup)

/-! ## MultiFormatWriter: `save_excel`, `save_csv`, `save_json`
(lines 105-165).  Each writer is modelled by the value content of the
artifact it produces; fonts, alignments and column widths (lines
116-148) are presentation hints that do not change any cell value and
are not part of the content model. -/

/-- One worksheet: a title and its rows of cell values. -/
structure Worksheet where
  title : String
  rows : List (List CellVal)
deriving Repr, DecidableEq

/-- An openpyxl workbook; `Workbook()` starts with a single active
sheet. -/
structure Workbook where
  sheets : List Worksheet
deriving Repr, DecidableEq

/-- The header list hard-coded in `save_excel` (line 110). -/
def excelHeaders : List String :=
  ["rank", "title", "heat", "tag", "brief", "link", "trend", "fetched_at", "source"]

/-- The writer `save_excel` (lines 105-150): one sheet titled `百度热榜实时数据`,
a header row, then one row per record with `r.get(h, "")` per header. -/
def save_excel (rows : List Record) : Workbook :=
  { sheets := [{ title := "百度热榜实时数据"
                 rows := excelHeaders.map CellVal.str ::
                   rows.map (fun r => excelHeaders.map r.get) }] }

/-- Python `str(...)` on a cell value: the identity on strings, decimal
rendering of ints (what the `csv` writer applies to each value). -/
def cellStr : CellVal → String
  | .int i => toString i
  | .str s => s

/-- The writer `save_csv` (lines 153-160): `None` models the early `return` for an
empty sequence — no file is opened or created; otherwise the header row
is `list(rows[0].keys())` and each record is written under those
fieldnames. -/
def save_csv (rows : List Record) : Option (List (List String)) :=
  match rows with
  | [] => none
  | _ :: _ =>
    let headers := Record.keys
    some (headers :: rows.map (fun row => headers.map (fun h => cellStr (row.get h))))

/-- A JSON value (`json.dump` output; `ensure_ascii=False` and
`indent=2` affect the byte rendering only, not the value). -/
inductive Json where
  | num (i : Int)
  | str (s : String)
  | arr (xs : List Json)
  | obj (kvs : List (String × Json))
deriving Repr

/-- Injection of a cell value into JSON. -/
def cellJson : CellVal → Json
  | .int i => .num i
  | .str s => .str s

/-- The writer `save_json` (lines 163-165): the record list as an array of objects,
keys in dict insertion order. -/
def save_json (rows : List Record) : Json :=
  .arr (rows.map (fun r => .obj (Record.keys.map (fun k => (k, cellJson (r.get k))))))

/-! ## SessionFactory / PageFetcher (lines 33-44, 168-172)

`build_session` installs `Retry(total=5, status_forcelist=[429, 500,
502, 503, 504], allowed_methods=["GET", ...], raise_on_status=False)`.
urllib3 semantics for a GET: `total` is the number of RETRIES, so up to
`total + 1` requests are issued.  A response whose status is in the
forcelist is retried while retries remain; once retries are exhausted,
`raise_on_status=False` makes the adapter return the last response
instead of raising.  A connection/read/timeout error is retried the
same way, but on exhaustion the error propagates (the transport yields
no response).  The transport is modelled as a function from the 0-based
attempt number to `some` response or `none` for an I/O or timeout
failure of that attempt. -/

/-- An HTTP response: final status and body text. -/
structure HttpResponse where
  status : Nat
  body : String
deriving Repr, DecidableEq

/-- The `status_forcelist` of line 38. -/
def statusForcelist : List Nat := [429, 500, 502, 503, 504]

/-- The retry loop of the mounted adapter: given remaining retries and
the current attempt index, returns the session-level outcome (`none`
models a raised connection/timeout error) together with the total
number of HTTP attempts performed. -/
def sessionGetAux (transport : Nat → Option HttpResponse) :
    Nat → Nat → Option HttpResponse × Nat
  | 0, i => (transport i, i + 1)
  | r + 1, i =>
    match transport i with
    | none => sessionGetAux transport r (i + 1)
    | some resp =>
      if resp.status ∈ statusForcelist then sessionGetAux transport r (i + 1)
      else (some resp, i + 1)

/-- Model of `session.get(BAIDU_TOP_URL, timeout=10)` through the adapter built
by `build_session` (`total=5` retries). -/
def sessionGet (transport : Nat → Option HttpResponse) : Option HttpResponse × Nat :=
  sessionGetAux transport 5 0

/-- The outcome of the fetch step of `main` (lines 170-172). -/
inductive FetchOutcome where
  | ok (body : String)
  | netError
deriving Repr, DecidableEq

/-- Predicate of `resp.raise_for_status()`: it raises `HTTPError` exactly for statuses
in `[400, 600)`. -/
def raiseForStatus (status : Nat) : Bool :=
  decide (400 ≤ status ∧ status < 600)

/-- Lines 170-172 of `main`: issue the GET, call `raise_for_status`,
and take `resp.text`; any raised error (exhausted I/O failures or an
`HTTPError`) is the fatal `NetworkError` of the design.  Also returns
the number of HTTP attempts performed. -/
def fetchPage (transport : Nat → Option HttpResponse) : FetchOutcome × Nat :=
  match sessionGet transport with
  | (none, n) => (.netError, n)
  | (some resp, n) =>
    if raiseForStatus resp.status then (.netError, n) else (.ok resp.body, n)

/-! ## `main` (lines 168-187) -/

/-- Everything `main` persists after a successful fetch. -/
structure RunOutputs where
  persisted : List Record
  excel : Workbook
  csv : Option (List (List String))
  json : Json

/-- Lines 174-182 of `main`: parse, extract, filter out empty titles
(`if d.get("title")` keeps exactly the records whose title is a
non-empty string), and hand the same filtered list to all three
writers. -/
def runPipeline (ts : String) (soup : Dom) : RunOutputs :=
  let data := (parse_items ts soup).filter (fun d => d.title ≠ "")
  { persisted := data
    excel := save_excel data
    csv := save_csv data
    json := save_json data }

/-- The entry point `main` (lines 168-187): `parseHtml` models `BeautifulSoup(html,
"html.parser")`, `ts` the run timestamp.  `none` models a raised
`NetworkError`: the run aborts before any writer executes, so no output
file is created. -/
def mainRun (transport : Nat → Option HttpResponse)
    (parseHtml : String → Dom) (ts : String) : Option RunOutputs :=
  match fetchPage transport with
  | (.netError, _) => none
  | (.ok html, _) => some (runPipeline ts (parseHtml html))

/-! ## Helper lemmas about the extraction loop -/

/-- The loop produces exactly one record per card. -/
theorem extractFrom_length (ts : String) (n : Nat) (cards : List Dom) :
    (extractFrom ts n cards).length = cards.length := by
  induction cards generalizing n with
  | nil => rfl
  | cons c cs ih => simp [extractFrom, ih]

/-- The record at position `j` is the extraction of the card at
position `j`, with the 1-based index `n + j`. -/
theorem extractFrom_getElem? (ts : String) (n : Nat) (cards : List Dom) (j : Nat) :
    (extractFrom ts n cards)[j]? = cards[j]?.map (fun c => extractCard ts (n + j) c) := by
  induction cards generalizing n j with
  | nil => simp [extractFrom]
  | cons c cs ih =>
    cases j with
    | zero => simp [extractFrom]
    | succ j =>
      simp only [extractFrom, List.getElem?_cons_succ, ih (n + 1) j]
      have : n + 1 + j = n + (j + 1) := by omega
      rw [this]

/-- Positional form of `parse_items`: record `i` extracts discovered card `i`
with 1-based index `i + 1`. -/
theorem parse_items_getElem? (ts : String) (soup : Dom) (i : Nat) :
    (parse_items ts soup)[i]? =
      ((discoverCards soup)[i]?).map (fun c => extractCard ts (i + 1) c) := by
  rw [parse_items, extractFrom_getElem?, Nat.add_comm 1 i]

/-- When the primary container selector has a match it is used. -/
theorem discoverCards_of_primary (soup : Dom) (h : soup.select [cardSel1] ≠ []) :
    discoverCards soup = soup.select [cardSel1] := by
  rw [discoverCards, if_neg]
  simpa using h

/-- When the primary container selector is empty the fallback is used. -/
theorem discoverCards_of_fallback (soup : Dom) (h : soup.select [cardSel1] = []) :
    discoverCards soup = soup.select [cardSel2] := by
  rw [discoverCards, if_pos]
  simpa using h

/-- Discovered cards are a subsequence of the document-order element
descendants of the soup: page order is preserved. -/
theorem discoverCards_sublist (soup : Dom) :
    List.Sublist (discoverCards soup) soup.descendants := by
  by_cases h : soup.select [cardSel1] = []
  · rw [discoverCards_of_fallback soup h, Dom.select]
    exact List.filter_sublist _
  · rw [discoverCards_of_primary soup h, Dom.select]
    exact List.filter_sublist _

/-! ## Concrete fixtures used by witnesses and counterexamples -/

/-- A card in the shape of the spec's concrete scenario: hashed-class
rank 3, title, heat, a link, a brief, no tag and no trend element. -/
def demoCard : Dom :=
  .elem "div" ["category-wrap_iQLoo"] [] [
    .elem "a" [] [("href", "/item/1")] [
      .elem "div" ["index_1Ew5p"] [] [.text "3"],
      .elem "div" ["c-single-text-ellipsis"] [] [.text "Topic A"],
      .elem "div" ["hot-index_1Bl1a"] [] [.text "120万"]
    ],
    .elem "div" ["hot-desc_1m_jR"] [] [.text "desc text"]
  ]

/-- A page holding the single demonstration card. -/
def demoSoup : Dom := .elem "html" [] [] [demoCard]

/-- The record the demonstration card extracts to. -/
def demoRecord : Record :=
  { rank := 3, title := "Topic A", heat := "120万", tag := "", brief := "desc text",
    link := "/item/1", trend := "", fetched_at := "TS", source := BAIDU_TOP_URL }

/-- A card whose rank element holds non-numeric text. -/
def malformedRankCard : Dom :=
  .elem "div" ["category-wrap_iQLoo"] [] [
    .elem "div" ["index"] [] [.text "hot"],
    .elem "div" ["c-single-text-ellipsis"] [] [.text "Bad Rank"]]

/-- A card with a numeric rank element. -/
def okRankCard : Dom :=
  .elem "div" ["category-wrap_iQLoo"] [] [
    .elem "div" ["index"] [] [.text "2"],
    .elem "div" ["c-single-text-ellipsis"] [] [.text "Good Rank"]]

/-- A page whose first card has a malformed rank and whose second is
well-formed. -/
def twoCardSoup : Dom := .elem "html" [] [] [malformedRankCard, okRankCard]

/-- A card with no matching descendant for any field selector. -/
def bareCard : Dom := .elem "div" ["category-wrap_iQLoo"] [] []

/-- A card using only the generic (non-hashed) container class, with a
title and no rank element. -/
def genericCard : Dom :=
  .elem "div" ["category-wrap"] [] [
    .elem "div" ["c-single-text-ellipsis"] [] [.text "Generic"]]

/-- A page using only the generic (non-hashed) container class. -/
def genericSoup : Dom := .elem "html" [] [] [genericCard]

/-- A page with no card container at all. -/
def emptySoup : Dom := .elem "html" [] [] [.elem "p" [] [] [.text "nothing here"]]

/-- A card whose rank element parses to the non-positive integer 0. -/
def zeroRankCard : Dom :=
  .elem "div" ["category-wrap_iQLoo"] [] [
    .elem "div" ["index_1Ew5p"] [] [.text "0"],
    .elem "div" ["c-single-text-ellipsis"] [] [.text "Zero"]]

/-- A page holding the zero-rank card. -/
def zeroRankSoup : Dom := .elem "html" [] [] [zeroRankCard]

/-- A transport whose every attempt yields status 503. -/
def always503 : Nat → Option HttpResponse :=
  fun _ => some { status := 503, body := "service unavailable" }

/-- A transport whose every attempt yields status 304 (not 2xx, not in
the retry forcelist, not 4xx/5xx). -/
def always304 : Nat → Option HttpResponse :=
  fun _ => some { status := 304, body := "cached" }

/-- A transport that succeeds immediately with status 200. -/
def always200 : Nat → Option HttpResponse :=
  fun _ => some { status := 200, body := "<html></html>" }

/-! ## Claims -/

/-- C1: for every fetched page, a record appears in the persisted
sequence — the one handed to all three writers — iff its `title` is a
non-empty string; the persisted sequence is an order-preserving
subsequence of the extracted one (so nothing else is dropped), and each
writer receives exactly that filtered sequence. -/
theorem C1_title_filter (ts : String) (soup : Dom) :
    (∀ r : Record, r ∈ (runPipeline ts soup).persisted ↔
      (r ∈ parse_items ts soup ∧ r.title ≠ "")) ∧
    List.Sublist (runPipeline ts soup).persisted (parse_items ts soup) ∧
    (runPipeline ts soup).excel = save_excel (runPipeline ts soup).persisted ∧
    (runPipeline ts soup).csv = save_csv (runPipeline ts soup).persisted ∧
    (runPipeline ts soup).json = save_json (runPipeline ts soup).persisted := by
  refine ⟨fun r => ?_, List.filter_sublist _, rfl, rfl, rfl⟩
  simp [runPipeline, List.mem_filter]

/-- Witness for C1: the demonstration record has a non-empty title and
is persisted. -/
theorem C1_title_filter_witness :
    demoRecord ∈ (runPipeline "TS" demoSoup).persisted :=
  ((C1_title_filter "TS" demoSoup).1 demoRecord).mpr (by decide)

/-- C3: extraction is total and per-field isolated: exactly one record
per discovered card is produced; each text field defaults to the empty
string when its selector chain has no match; every field of the record
is computed by its own per-field extractor (so a failure in one field
cannot change another); and a card with no matching node for any field
still yields a complete default record rather than aborting. -/
theorem C3_field_isolation (ts : String) (soup : Dom) (idx : Nat) (card : Dom) :
    (parse_items ts soup).length = (discoverCards soup).length ∧
    (card.selectOne titleSels = none → (extractCard ts idx card).title = "") ∧
    (card.selectOne heatSels = none → (extractCard ts idx card).heat = "") ∧
    (card.selectOne tagSels = none → (extractCard ts idx card).tag = "") ∧
    (card.selectOne briefSels = none → (extractCard ts idx card).brief = "") ∧
    (card.selectOne linkSels = none → (extractCard ts idx card).link = "") ∧
    (card.selectOne trendSels = none → (extractCard ts idx card).trend = "") ∧
    ((extractCard ts idx card).title = extractTitle card ∧
      (extractCard ts idx card).rank = extractRank idx card ∧
      (extractCard ts idx card).heat = extractHeat card ∧
      (extractCard ts idx card).tag = extractTag card ∧
      (extractCard ts idx card).brief = extractBrief card ∧
      (extractCard ts idx card).link = extractLink card ∧
      (extractCard ts idx card).trend = extractTrend card ∧
      (extractCard ts idx card).fetched_at = ts ∧
      (extractCard ts idx card).source = BAIDU_TOP_URL) ∧
    (card.selectOne titleSels = none → card.selectOne rankSels = none →
      card.selectOne heatSels = none → card.selectOne tagSels = none →
      card.selectOne briefSels = none → card.selectOne linkSels = none →
      card.selectOne trendSels = none →
      extractCard ts idx card =
        { rank := (idx : Int), title := "", heat := "", tag := "", brief := "",
          link := "", trend := "", fetched_at := ts, source := BAIDU_TOP_URL }) := by
  refine ⟨extractFrom_length ts 1 _, ?_, ?_, ?_, ?_, ?_, ?_,
    ⟨rfl, rfl, rfl, rfl, rfl, rfl, rfl, rfl, rfl⟩, ?_⟩
  · intro h; simp [extractCard, extractTitle, h]
  · intro h; simp [extractCard, extractHeat, h]
  · intro h; simp [extractCard, extractTag, h]
  · intro h; simp [extractCard, extractBrief, h]
  · intro h; simp [extractCard, extractLink, h]
  · intro h; simp [extractCard, extractTrend, h]
  · intro h1 h2 h3 h4 h5 h6 h7
    simp [extractCard, extractTitle, extractRank, extractHeat, extractTag,
      extractBrief, extractLink, extractTrend, h1, h2, h3, h4, h5, h6, h7]

/-- Witness for C3: a card with no matching node for any field yields
the full default record with the positional rank. -/
theorem C3_field_isolation_witness :
    extractCard "TS" 4 bareCard =
      { rank := (4 : Int), title := "", heat := "", tag := "", brief := "",
        link := "", trend := "", fetched_at := "TS", source := BAIDU_TOP_URL } :=
  (C3_field_isolation "TS" demoSoup 4 bareCard).2.2.2.2.2.2.2.2
    rfl rfl rfl rfl rfl rfl rfl

/-- C4: card discovery uses the first container selector that matches
at least one node and never merges the two selectors' results; when
neither matches, extraction returns the empty sequence; the unfiltered
extractor output has exactly one record per discovered card, in page
(document) order. -/
theorem C4_card_discovery (ts : String) (soup : Dom) :
    (soup.select [cardSel1] ≠ [] → discoverCards soup = soup.select [cardSel1]) ∧
    (soup.select [cardSel1] = [] → discoverCards soup = soup.select [cardSel2]) ∧
    (soup.select [cardSel1] = [] → soup.select [cardSel2] = [] →
      parse_items ts soup = []) ∧
    (parse_items ts soup).length = (discoverCards soup).length ∧
    (∀ i : Nat, (parse_items ts soup)[i]? =
      ((discoverCards soup)[i]?).map (fun c => extractCard ts (i + 1) c)) ∧
    List.Sublist (discoverCards soup) soup.descendants := by
  refine ⟨discoverCards_of_primary soup, discoverCards_of_fallback soup, ?_,
    extractFrom_length ts 1 _, parse_items_getElem? ts soup, discoverCards_sublist soup⟩
  intro h1 h2
  rw [parse_items, discoverCards_of_fallback soup h1, h2]
  rfl

/-- Witness for C4: with only the generic container class present the
fallback selector is used, and with no container at all extraction
returns the empty sequence. -/
theorem C4_card_discovery_witness :
    discoverCards genericSoup = genericSoup.select [cardSel2] ∧
      parse_items "TS" emptySoup = [] :=
  ⟨(C4_card_discovery "TS" genericSoup).2.1 rfl,
    (C4_card_discovery "TS" emptySoup).2.2.1 rfl rfl⟩

/-- C2: the extracted rank of card `i` is the integer parse of its rank
element's text when one matches and parses; otherwise the 1-based
position `i + 1`.  Record `i` is a function of card `i` alone, its
non-rank fields are each given by their own per-field extractor, and
replacing card `i` by any other card (say one with a malformed rank)
leaves every record at a position other than `i` unchanged. -/
theorem C2_rank_fallback (ts : String) (soup : Dom) (i : Nat) (card : Dom)
    (hcard : (discoverCards soup)[i]? = some card) :
    (∀ el n, card.selectOne rankSels = some el →
      pyInt (get_text "" true el) = some n →
      ((parse_items ts soup)[i]?).map Record.rank = some n) ∧
    (card.selectOne rankSels = none →
      ((parse_items ts soup)[i]?).map Record.rank = some ((i + 1 : Nat) : Int)) ∧
    (∀ el, card.selectOne rankSels = some el →
      pyInt (get_text "" true el) = none →
      ((parse_items ts soup)[i]?).map Record.rank = some ((i + 1 : Nat) : Int)) ∧
    ((parse_items ts soup)[i]? = some (extractCard ts (i + 1) card)) ∧
    (∀ r, (parse_items ts soup)[i]? = some r →
      r.title = extractTitle card ∧ r.heat = extractHeat card ∧
      r.tag = extractTag card ∧ r.brief = extractBrief card ∧
      r.link = extractLink card ∧ r.trend = extractTrend card ∧
      r.fetched_at = ts ∧ r.source = BAIDU_TOP_URL) ∧
    (∀ c' j, j ≠ i →
      (extractFrom ts 1 ((discoverCards soup).set i c'))[j]? =
        (parse_items ts soup)[j]?) := by
  have hx : (parse_items ts soup)[i]? = some (extractCard ts (i + 1) card) := by
    rw [parse_items_getElem?, hcard]; rfl
  refine ⟨?_, ?_, ?_, hx, ?_, ?_⟩
  · intro el n h1 h2
    rw [hx]
    simp [extractCard, extractRank, h1, h2]
  · intro h1
    rw [hx]
    simp [extractCard, extractRank, h1]
  · intro el h1 h2
    rw [hx]
    simp [extractCard, extractRank, h1, h2]
  · intro r hr
    rw [hx] at hr
    obtain rfl := Option.some.inj hr
    exact ⟨rfl, rfl, rfl, rfl, rfl, rfl, rfl, rfl⟩
  · intro c' j hj
    rw [extractFrom_getElem?, parse_items_getElem?,
      List.getElem?_set_ne (by omega), Nat.add_comm 1 j]

/-- Witness for C2: on a page whose first card has the non-numeric rank
text `hot`, record 0 receives the positional rank 1, and replacing that
card by an arbitrary other card leaves record 1 unchanged. -/
theorem C2_rank_fallback_witness :
    ((parse_items "TS" twoCardSoup)[0]?).map Record.rank = some ((0 + 1 : Nat) : Int) ∧
    (extractFrom "TS" 1 ((discoverCards twoCardSoup).set 0 bareCard))[1]? =
      (parse_items "TS" twoCardSoup)[1]? :=
  ⟨(C2_rank_fallback "TS" twoCardSoup 0 malformedRankCard rfl).2.2.1
      (Dom.elem "div" ["index"] [] [Dom.text "hot"]) rfl rfl,
    (C2_rank_fallback "TS" twoCardSoup 0 malformedRankCard rfl).2.2.2.2.2
      bareCard 1 (by decide)⟩

/-- C8 counterexample: a card whose rank element text is `0` produces a
record whose rank is 0, which is not a positive integer, so extraction
does not guarantee positive ranks. -/
theorem C8_counterexample :
    (parse_items "TS" zeroRankSoup).map Record.rank = [(0 : Int)] ∧
    (∃ r ∈ parse_items "TS" zeroRankSoup, ¬ 0 < r.rank) := by decide

/-- C8 amended: every extracted record's rank is the primary selector's
parsed value when a rank element matches and its text parses — which is
whatever integer the page text denotes, not necessarily positive — and
otherwise the 1-based position among extracted cards; the rank is
positive whenever no rank element matches or its text fails to parse. -/
theorem C8_rank_values (ts : String) (soup : Dom) (i : Nat) (card : Dom) (r : Record)
    (hcard : (discoverCards soup)[i]? = some card)
    (hr : (parse_items ts soup)[i]? = some r) :
    (∀ el, card.selectOne rankSels = some el →
      r.rank = (pyInt (get_text "" true el)).getD ((i + 1 : Nat) : Int)) ∧
    (card.selectOne rankSels = none →
      r.rank = ((i + 1 : Nat) : Int) ∧ 0 < r.rank) ∧
    (∀ el, card.selectOne rankSels = some el → pyInt (get_text "" true el) = none →
      r.rank = ((i + 1 : Nat) : Int) ∧ 0 < r.rank) := by
  rw [parse_items_getElem?, hcard] at hr
  obtain rfl := Option.some.inj hr
  refine ⟨?_, ?_, ?_⟩
  · intro el h1
    simp [extractCard, extractRank, h1]
  · intro h1
    constructor
    · simp [extractCard, extractRank, h1]
    · simp [extractCard, extractRank, h1]
  · intro el h1 h2
    constructor
    · simp [extractCard, extractRank, h1, h2]
    · simp [extractCard, extractRank, h1, h2]

/-- Witness for C8 (amended): the generic card has no rank element, so
its record gets the positive positional rank 1. -/
theorem C8_rank_values_witness :
    (extractCard "TS" (0 + 1) genericCard).rank = ((0 + 1 : Nat) : Int) ∧
      0 < (extractCard "TS" (0 + 1) genericCard).rank :=
  (C8_rank_values "TS" genericSoup 0 genericCard
    (extractCard "TS" (0 + 1) genericCard) rfl rfl).2.1 rfl

/-- C5 counterexample: with a transport answering 503 on every attempt
the fetch fails, but after 6 HTTP attempts — the initial request plus
the policy's `total=5` retries — not after 5 as claimed. -/
theorem C5_counterexample :
    (fetchPage always503).1 = FetchOutcome.netError ∧
    (fetchPage always503).2 = 6 ∧ ¬ (fetchPage always503).2 = 5 := by decide

/-- C5 amended: when the transport returns status 503 on every attempt,
the fetch fails with a NetworkError after exactly 6 total HTTP attempts
(1 initial + 5 retries), and no output file is created: `main` aborts
before reaching any writer. -/
theorem C5_retry_exhaustion (transport : Nat → Option HttpResponse)
    (parseHtml : String → Dom) (ts : String)
    (h : ∀ i, ∃ b, transport i = some { status := 503, body := b }) :
    (fetchPage transport).1 = FetchOutcome.netError ∧
    (fetchPage transport).2 = 6 ∧
    mainRun transport parseHtml ts = none := by
  obtain ⟨b0, h0⟩ := h 0
  obtain ⟨b1, h1⟩ := h 1
  obtain ⟨b2, h2⟩ := h 2
  obtain ⟨b3, h3⟩ := h 3
  obtain ⟨b4, h4⟩ := h 4
  obtain ⟨b5, h5⟩ := h 5
  have hs : sessionGet transport = (some { status := 503, body := b5 }, 6) := by
    simp [sessionGet, sessionGetAux, h0, h1, h2, h3, h4, h5, statusForcelist]
  have hf : fetchPage transport = (FetchOutcome.netError, 6) := by
    rw [fetchPage, hs]
    simp [raiseForStatus]
  refine ⟨by rw [hf], by rw [hf], ?_⟩
  rw [mainRun, hf]

/-- Witness for C5 (amended) at the concrete always-503 transport. -/
theorem C5_retry_exhaustion_witness :
    (fetchPage always503).2 = 6 ∧
      mainRun always503 (fun _ => Dom.text "") "TS" = none :=
  ⟨(C5_retry_exhaustion always503 (fun _ => Dom.text "") "TS"
      (fun _ => ⟨"service unavailable", rfl⟩)).2.1,
    (C5_retry_exhaustion always503 (fun _ => Dom.text "") "TS"
      (fun _ => ⟨"service unavailable", rfl⟩)).2.2⟩

/-- C6 counterexample: a final status of 304 is not a success (2xx)
status, yet the fetch returns the body instead of failing —
`raise_for_status` raises only for statuses in `[400, 600)`. -/
theorem C6_counterexample :
    (fetchPage always304).1 = FetchOutcome.ok "cached" ∧
    ¬ (200 ≤ 304 ∧ 304 < 300) ∧
    ¬ (fetchPage always304).1 = FetchOutcome.netError := by decide

/-- C6 amended: the fetch returns the response body as text when the
final status is a success (2xx); it fails with a NetworkError — and
`main` then creates no output — when the final status is 4xx/5xx or
when the transport fails with an I/O/timeout error on every remaining
attempt; a final 1xx/3xx status, however, also returns the body. -/
theorem C6_fetch_contract (transport : Nat → Option HttpResponse)
    (parseHtml : String → Dom) (ts : String) :
    (∀ resp, (sessionGet transport).1 = some resp →
      200 ≤ resp.status → resp.status < 300 →
      (fetchPage transport).1 = FetchOutcome.ok resp.body) ∧
    (∀ resp, (sessionGet transport).1 = some resp →
      400 ≤ resp.status → resp.status < 600 →
      (fetchPage transport).1 = FetchOutcome.netError) ∧
    ((sessionGet transport).1 = none →
      (fetchPage transport).1 = FetchOutcome.netError) ∧
    (∀ resp, (sessionGet transport).1 = some resp →
      ¬ (400 ≤ resp.status ∧ resp.status < 600) →
      (fetchPage transport).1 = FetchOutcome.ok resp.body) ∧
    ((fetchPage transport).1 = FetchOutcome.netError →
      mainRun transport parseHtml ts = none) := by
  rcases hsg : sessionGet transport with ⟨o, n⟩
  have hok : ∀ resp, o = some resp → ¬ (400 ≤ resp.status ∧ resp.status < 600) →
      (fetchPage transport).1 = FetchOutcome.ok resp.body := by
    intro resp ho hn
    subst ho
    rw [fetchPage, hsg]
    simp [raiseForStatus, hn]
  have herr : ∀ resp, o = some resp → 400 ≤ resp.status → resp.status < 600 →
      (fetchPage transport).1 = FetchOutcome.netError := by
    intro resp ho h4 h6
    subst ho
    rw [fetchPage, hsg]
    simp [raiseForStatus, h4, h6]
  refine ⟨?_, ?_, ?_, ?_, ?_⟩
  · intro resp hresp h200 h300
    exact hok resp hresp (by omega)
  · intro resp hresp h400 h600
    exact herr resp hresp h400 h600
  · intro hnone
    have ho : o = none := hnone
    subst ho
    rw [fetchPage, hsg]
  · intro resp hresp hn
    exact hok resp hresp hn
  · intro hne
    rcases hfp : fetchPage transport with ⟨o2, n2⟩
    rw [hfp] at hne
    have ho2 : o2 = FetchOutcome.netError := hne
    subst ho2
    rw [mainRun, hfp]

/-- Witness for C6 (amended): a transport succeeding with status 200 on
the first attempt yields the body. -/
theorem C6_fetch_contract_witness :
    (fetchPage always200).1 = FetchOutcome.ok "<html></html>" :=
  (C6_fetch_contract always200 (fun _ => Dom.text "") "TS").1
    { status := 200, body := "<html></html>" } rfl (by decide) (by decide)

/-- Zipping a list with its own image is mapping with the pairing. -/
theorem zip_self_map {α β : Type} : ∀ (l : List α) (g : α → β),
    l.zip (l.map g) = l.map (fun a => (a, g a))
  | [], _ => rfl
  | a :: l, g => by
    rw [List.map_cons, List.zip_cons_cons, zip_self_map l g, List.map_cons]

/-- C7: the three writers serialize the same per-record cell sequence
under the identical key/column order `rank, title, heat, tag, brief,
link, trend, fetched_at, source`; CSV renders each cell with Python
`str` — the identity on string values — and JSON injects the cell
values unchanged: no per-format transformation of any field value. -/
theorem C7_cross_format (rows : List Record) :
    excelHeaders = Record.keys ∧
    (save_excel rows).sheets = [⟨"百度热榜实时数据",
      Record.keys.map CellVal.str ::
        rows.map (fun r => Record.keys.map r.get)⟩] ∧
    (rows ≠ [] → save_csv rows = some (Record.keys ::
      rows.map (fun r => (Record.keys.map r.get).map cellStr))) ∧
    save_json rows = Json.arr (rows.map (fun r =>
      Json.obj (Record.keys.zip ((Record.keys.map r.get).map cellJson)))) ∧
    (∀ s, cellStr (.str s) = s) ∧ (∀ s, cellJson (.str s) = .str s) := by
  refine ⟨rfl, rfl, ?_, ?_, fun s => rfl, fun s => rfl⟩
  · intro hne
    cases rows with
    | nil => exact absurd rfl hne
    | cons r rs =>
      simp only [save_csv, List.map_map]
      rfl
  · simp only [save_json, List.map_map, zip_self_map]
    rfl

/-- Witness for C7: the CSV artifact of the demonstration record equals
the shared cells rendered through `str`. -/
theorem C7_cross_format_witness :
    save_csv [demoRecord] = some (Record.keys ::
      [demoRecord].map (fun r => (Record.keys.map r.get).map cellStr)) :=
  (C7_cross_format [demoRecord]).2.2.1 (by decide)

/-- C9: the CSV writer produces no file at all for an empty filtered
sequence — and only for an empty one — while the JSON writer still
produces a valid artifact holding an empty array. -/
theorem C9_empty_input (rows : List Record) :
    save_csv ([] : List Record) = none ∧
    save_json ([] : List Record) = Json.arr [] ∧
    (save_csv rows = none ↔ rows = []) := by
  refine ⟨rfl, rfl, ?_⟩
  cases rows with
  | nil => simp [save_csv]
  | cons r rs => simp [save_csv]

/-- Witness for C9: a nonempty sequence does produce a CSV file. -/
theorem C9_empty_input_witness : ¬ save_csv [demoRecord] = none :=
  fun h => absurd ((C9_empty_input [demoRecord]).2.2.mp h) (by decide)

/-- C10: on an empty filtered sequence the spreadsheet writer still
produces a workbook whose single sheet contains exactly one row — the
header row in the fixed column order `rank, title, heat, tag, brief,
link, trend, fetched_at, source` — and no data rows. -/
theorem C10_empty_excel :
    (save_excel []).sheets.length = 1 ∧
    (save_excel []).sheets = [⟨"百度热榜实时数据",
      [excelHeaders.map CellVal.str]⟩] ∧
    excelHeaders = ["rank", "title", "heat", "tag", "brief", "link", "trend",
      "fetched_at", "source"] :=
  ⟨rfl, rfl, rfl⟩

end BaiduHot
